import Mathlib

/-!
Verification development for the PPC analyzer backend core: the tabular
metrics aggregation engine (`analysis_engine.py`) and the rule-based
recommendation generator (`recommendation_engine.py`), shallowly embedded.

Modelling conventions:
* A dataframe cell is a `Cell`: a numeric value (`num`), a non-numeric
  string (`str`), or a missing value / NaN (`null`).  Strings that
  `pd.to_numeric` would parse successfully are represented directly as
  `num`; `str` stands for the unparseable ones.
* Python floats are modelled by rationals.  The IEEE special values that
  pandas columnwise division can produce are modelled explicitly by the
  type `EF` below and eliminated exactly where the source eliminates them
  (`replace([inf, -inf], nan)` / `fillna(0)`).
* A dataframe is a list of rows together with one presence flag per
  column of interest; reading a column that is absent raises (`Except`).
* `pd.to_datetime` on the optional `Date` column is wrapped in
  `try/except` in the source (lines 30-35 of `analysis_engine.py`) and no
  later computation reads the parsed dates, so the `date` cell is carried
  through unchanged by the embedding.
-/

/-- One dataframe cell: a numeric value, a non-numeric string, or NaN. -/
inductive Cell where
  | num (q : ℚ)
  | str (s : String)
  | null
deriving DecidableEq, Repr

/-- One raw input row, covering the columns the core ever touches. -/
structure RawRow where
  impressions : Cell
  clicks : Cell
  spend : Cell
  sales : Cell
  orders : Cell
  campaign : Cell
  keyword : Cell
  date : Cell
deriving DecidableEq, Repr

/-- A pandas DataFrame restricted to the columns the core reads: a presence
flag per column plus the cell contents of each row. -/
structure RawFrame where
  hasImpressions : Bool
  hasClicks : Bool
  hasSpend : Bool
  hasSales : Bool
  hasOrders : Bool
  hasCampaign : Bool
  hasKeyword : Bool
  hasDate : Bool
  rows : List RawRow
deriving DecidableEq, Repr

/-- The frame with no columns and no rows (`pd.DataFrame()`). -/
def emptyFrame : RawFrame :=
  { hasImpressions := false, hasClicks := false, hasSpend := false,
    hasSales := false, hasOrders := false, hasCampaign := false,
    hasKeyword := false, hasDate := false, rows := [] }

/-- `pd.to_numeric(col, errors="coerce").fillna(0)` on one cell: numeric
values pass through unchanged (negative values included), anything
non-numeric becomes NaN and is then filled with 0. -/
def coerce : Cell → ℚ
  | Cell.num q => q
  | Cell.str _ => 0
  | Cell.null => 0

/-- One row after `MetricsAnalysisEngine._preprocess_data` (lines 16-28):
each of the five essential numeric columns is coerced when the column is
present and synthesized as zero when it is absent; dimension cells and the
date cell are untouched. -/
def preprocessRow (f : RawFrame) (r : RawRow) : RawRow :=
  { impressions := Cell.num (if f.hasImpressions then coerce r.impressions else 0)
    clicks := Cell.num (if f.hasClicks then coerce r.clicks else 0)
    spend := Cell.num (if f.hasSpend then coerce r.spend else 0)
    sales := Cell.num (if f.hasSales then coerce r.sales else 0)
    orders := Cell.num (if f.hasOrders then coerce r.orders else 0)
    campaign := r.campaign
    keyword := r.keyword
    date := r.date }

/-- `MetricsAnalysisEngine._preprocess_data`: after it runs, all five
essential numeric columns exist and hold numeric cells. -/
def preprocess_data (f : RawFrame) : RawFrame :=
  { f with
    hasImpressions := true, hasClicks := true, hasSpend := true,
    hasSales := true, hasOrders := true,
    rows := f.rows.map (preprocessRow f) }

/-- What the Flask layer may hand to the constructor: a pandas DataFrame,
or some other Python object (`other`). -/
inductive PyInput where
  | frame (f : RawFrame)
  | other
deriving DecidableEq, Repr

/-- `MetricsAnalysisEngine.__init__` (lines 5-14): a non-DataFrame input is
rejected with `ValueError` before any computation; a DataFrame is copied
and preprocessed, and the preprocessed copy is the engine state. -/
def mkEngine : PyInput → Except String RawFrame
  | PyInput.frame f => Except.ok (preprocess_data f)
  | PyInput.other => Except.error "Input must be a pandas DataFrame"

/-- `self.df[col].sum()` for the Impressions column.  The engine only sums
after preprocessing, when every cell of the column is numeric; `coerce`
reads that numeric value. -/
def get_total_impressions (df : RawFrame) : ℚ :=
  (df.rows.map (fun r => coerce r.impressions)).sum

def get_total_clicks (df : RawFrame) : ℚ :=
  (df.rows.map (fun r => coerce r.clicks)).sum

def get_total_spend (df : RawFrame) : ℚ :=
  (df.rows.map (fun r => coerce r.spend)).sum

def get_total_sales (df : RawFrame) : ℚ :=
  (df.rows.map (fun r => coerce r.sales)).sum

def get_total_orders (df : RawFrame) : ℚ :=
  (df.rows.map (fun r => coerce r.orders)).sum

/-- `calculate_ctr`: `(clicks / impressions) * 100 if impressions > 0 else 0`. -/
def calculate_ctr (df : RawFrame) : ℚ :=
  let impressions := get_total_impressions df
  let clicks := get_total_clicks df
  if 0 < impressions then clicks / impressions * 100 else 0

/-- `calculate_cpc`: `spend / clicks if clicks > 0 else 0`. -/
def calculate_cpc (df : RawFrame) : ℚ :=
  let spend := get_total_spend df
  let clicks := get_total_clicks df
  if 0 < clicks then spend / clicks else 0

/-- `calculate_cvr`: `(orders / clicks) * 100 if clicks > 0 else 0`. -/
def calculate_cvr (df : RawFrame) : ℚ :=
  let orders := get_total_orders df
  let clicks := get_total_clicks df
  if 0 < clicks then orders / clicks * 100 else 0

/-- `calculate_acos`: `(spend / sales) * 100 if sales > 0 else 0`. -/
def calculate_acos (df : RawFrame) : ℚ :=
  let spend := get_total_spend df
  let sales := get_total_sales df
  if 0 < sales then spend / sales * 100 else 0

/-- `calculate_roas`: `sales / spend if spend > 0 else 0`. -/
def calculate_roas (df : RawFrame) : ℚ :=
  let sales := get_total_sales df
  let spend := get_total_spend df
  if 0 < spend then sales / spend else 0

/-- The ten-entry overall summary dictionary, as one record. -/
structure Summary where
  totalImpressions : ℚ
  totalClicks : ℚ
  totalSpend : ℚ
  totalSales : ℚ
  totalOrders : ℚ
  ctr : ℚ
  cpc : ℚ
  cvr : ℚ
  acos : ℚ
  roas : ℚ
deriving DecidableEq, Repr

/-- `get_campaign_performance_summary` (lines 82-96). -/
def get_campaign_performance_summary (df : RawFrame) : Summary :=
  { totalImpressions := get_total_impressions df
    totalClicks := get_total_clicks df
    totalSpend := get_total_spend df
    totalSales := get_total_sales df
    totalOrders := get_total_orders df
    ctr := calculate_ctr df
    cpc := calculate_cpc df
    cvr := calculate_cvr df
    acos := calculate_acos df
    roas := calculate_roas df }

/-- Result of a pandas elementwise float division: a finite value or one of
the IEEE special values that the source later normalizes away. -/
inductive EF where
  | fin (q : ℚ)
  | nan
  | pinf
  | ninf
deriving DecidableEq, Repr

/-- Columnwise float division as pandas performs it: `x / 0` is NaN when
`x = 0` and a signed infinity otherwise. -/
def fdiv (a b : ℚ) : EF :=
  if b ≠ 0 then EF.fin (a / b)
  else if a = 0 then EF.nan
  else if 0 < a then EF.pinf
  else EF.ninf

/-- Multiplication by 100 on a float column: special values are absorbing. -/
def efScale : EF → EF
  | EF.fin q => EF.fin (q * 100)
  | e => e

/-- `replace([np.inf, -np.inf], np.nan)` followed by `fillna(0)`
(`analysis_engine.py` lines 128-130) on one float value. -/
def normalizeEF : EF → ℚ
  | EF.fin q => q
  | _ => 0

/-- One row of the grouped keyword-performance table. -/
structure GRow where
  campaign : Cell
  keyword : Cell
  totalImpressions : ℚ
  totalClicks : ℚ
  totalSpend : ℚ
  totalSales : ℚ
  totalOrders : ℚ
  ctr : ℚ
  cpc : ℚ
  cvr : ℚ
  acos : ℚ
  roas : ℚ
deriving DecidableEq, Repr

/-- The grouped table handed to the recommendation engine: presence flags
for the columns its guards test, plus the rows. -/
structure KwFrame where
  hasCampaignCol : Bool
  hasKeywordCol : Bool
  hasTotalImpressionsCol : Bool
  hasTotalClicksCol : Bool
  hasTotalSpendCol : Bool
  hasTotalSalesCol : Bool
  hasTotalOrdersCol : Bool
  hasCTRCol : Bool
  hasCPCCol : Bool
  hasCVRCol : Bool
  hasACOSCol : Bool
  hasROASCol : Bool
  rows : List GRow
deriving DecidableEq, Repr

/-- The empty DataFrame returned when a grouping column is missing
(`return pd.DataFrame()`, line 106): no columns, no rows. -/
def KwFrame.empty : KwFrame :=
  { hasCampaignCol := false, hasKeywordCol := false,
    hasTotalImpressionsCol := false, hasTotalClicksCol := false,
    hasTotalSpendCol := false, hasTotalSalesCol := false,
    hasTotalOrdersCol := false, hasCTRCol := false, hasCPCCol := false,
    hasCVRCol := false, hasACOSCol := false, hasROASCol := false,
    rows := [] }

/-- The groupby key of a row.  Pandas `groupby` runs with its default
`dropna=True`, so a row whose campaign or keyword cell is NaN belongs to
no group and is silently dropped. -/
def rowKey (r : RawRow) : Option (Cell × Cell) :=
  match r.campaign, r.keyword with
  | Cell.null, _ => none
  | _, Cell.null => none
  | c, k => some (c, k)

/-- The rows of one group: those whose key equals the given pair. -/
def groupRows (rows : List RawRow) (key : Cell × Cell) : List RawRow :=
  rows.filter (fun r => decide (rowKey r = some key))

/-- One aggregated output row of `get_keyword_performance`: the five sums
for the group followed by the five ratios computed from those sums, with
the NaN/inf normalization of lines 128-130 applied. -/
def mkGroup (rows : List RawRow) (key : Cell × Cell) : GRow :=
  let grp := groupRows rows key
  let ti := (grp.map (fun r => coerce r.impressions)).sum
  let tc := (grp.map (fun r => coerce r.clicks)).sum
  let tsp := (grp.map (fun r => coerce r.spend)).sum
  let tsa := (grp.map (fun r => coerce r.sales)).sum
  let tor := (grp.map (fun r => coerce r.orders)).sum
  { campaign := key.1, keyword := key.2,
    totalImpressions := ti, totalClicks := tc, totalSpend := tsp,
    totalSales := tsa, totalOrders := tor,
    ctr := normalizeEF (efScale (fdiv tc ti)),
    cpc := normalizeEF (fdiv tsp tc),
    cvr := normalizeEF (efScale (fdiv tor tc)),
    acos := normalizeEF (efScale (fdiv tsp tsa)),
    roas := normalizeEF (fdiv tsa tsp) }

/-- Lines 109-112 of `get_keyword_performance`: any of the five aggregation
columns still missing from `self.df` is created and filled with zeros
(an in-place write to the engine frame; a no-op after preprocessing). -/
def zeroImpressionsCol (f : RawFrame) : RawFrame :=
  if f.hasImpressions then f
  else { f with hasImpressions := true,
                rows := f.rows.map (fun r => { r with impressions := Cell.num 0 }) }

def zeroClicksCol (f : RawFrame) : RawFrame :=
  if f.hasClicks then f
  else { f with hasClicks := true,
                rows := f.rows.map (fun r => { r with clicks := Cell.num 0 }) }

def zeroSpendCol (f : RawFrame) : RawFrame :=
  if f.hasSpend then f
  else { f with hasSpend := true,
                rows := f.rows.map (fun r => { r with spend := Cell.num 0 }) }

def zeroSalesCol (f : RawFrame) : RawFrame :=
  if f.hasSales then f
  else { f with hasSales := true,
                rows := f.rows.map (fun r => { r with sales := Cell.num 0 }) }

def zeroOrdersCol (f : RawFrame) : RawFrame :=
  if f.hasOrders then f
  else { f with hasOrders := true,
                rows := f.rows.map (fun r => { r with orders := Cell.num 0 }) }

def ensureAggCols (f : RawFrame) : RawFrame :=
  zeroOrdersCol (zeroSalesCol (zeroSpendCol (zeroClicksCol (zeroImpressionsCol f))))

/-- `MetricsAnalysisEngine.get_keyword_performance` (lines 98-132): returns
the empty DataFrame when either grouping column is absent; otherwise groups
by (campaign, keyword), sums the five numeric columns per group, and adds
the five ratio columns with NaN/inf normalized to 0.  Pandas emits the
groups sorted by key; every property below is order-insensitive, and
`dedup` yields the same key set. -/
def get_keyword_performance (df : RawFrame) : KwFrame :=
  if df.hasKeyword && df.hasCampaign then
    let df2 := ensureAggCols df
    let keys := (df2.rows.filterMap rowKey).dedup
    { hasCampaignCol := true, hasKeywordCol := true,
      hasTotalImpressionsCol := true, hasTotalClicksCol := true,
      hasTotalSpendCol := true, hasTotalSalesCol := true,
      hasTotalOrdersCol := true, hasCTRCol := true, hasCPCCol := true,
      hasCVRCol := true, hasACOSCol := true, hasROASCol := true,
      rows := keys.map (mkGroup df2.rows) }
  else KwFrame.empty

/-- One advisory, tagged by the rule that produced it and carrying the
values interpolated into its message text (string rendering abstracted,
per the structured-record reading of the messages). -/
inductive Advisory where
  | highACOS (keyword campaign : Cell) (acosValue : ℚ)
  | lowCTR (keyword campaign : Cell) (ctrValue : ℚ)
  | highPerformer (keyword campaign : Cell) (acosValue salesValue : ℚ)
  | ineffectiveSpend (keyword campaign : Cell) (spendValue : ℚ)
  | sentinel
deriving DecidableEq, Repr

/-- `row["Keyword or Product Targeting"]`: raises `KeyError` when the
grouped table has no such column (no rule guards this read). -/
def readKeyword (kd : KwFrame) (r : GRow) : Except String Cell :=
  if kd.hasKeywordCol then Except.ok r.keyword
  else Except.error "KeyError: Keyword or Product Targeting"

/-- `row["Campaign Name"]`: raises `KeyError` when absent. -/
def readCampaign (kd : KwFrame) (r : GRow) : Except String Cell :=
  if kd.hasCampaignCol then Except.ok r.campaign
  else Except.error "KeyError: Campaign Name"

/-- The advisory built in the loop body of rule 1 (lines 24-30). -/
def mkRule1 (kd : KwFrame) (r : GRow) : Except String Advisory :=
  match readKeyword kd r, readCampaign kd r with
  | Except.ok kw, Except.ok cp => Except.ok (Advisory.highACOS kw cp r.acos)
  | Except.error e, _ => Except.error e
  | _, Except.error e => Except.error e

/-- The advisory built in the loop body of rule 2 (lines 38-44). -/
def mkRule2 (kd : KwFrame) (r : GRow) : Except String Advisory :=
  match readKeyword kd r, readCampaign kd r with
  | Except.ok kw, Except.ok cp => Except.ok (Advisory.lowCTR kw cp r.ctr)
  | Except.error e, _ => Except.error e
  | _, Except.error e => Except.error e

/-- The advisory built in the loop body of rule 3 (lines 53-58). -/
def mkRule3 (kd : KwFrame) (r : GRow) : Except String Advisory :=
  match readKeyword kd r, readCampaign kd r with
  | Except.ok kw, Except.ok cp =>
      Except.ok (Advisory.highPerformer kw cp r.acos r.totalSales)
  | Except.error e, _ => Except.error e
  | _, Except.error e => Except.error e

/-- The advisory built in the loop body of rule 4 (lines 69-74). -/
def mkRule4 (kd : KwFrame) (r : GRow) : Except String Advisory :=
  match readKeyword kd r, readCampaign kd r with
  | Except.ok kw, Except.ok cp =>
      Except.ok (Advisory.ineffectiveSpend kw cp r.totalSpend)
  | Except.error e, _ => Except.error e
  | _, Except.error e => Except.error e

/-- The per-rule `for index, row in matching.iterrows()` loop: appends one
advisory per matching row, in table-row order, onto the accumulated
`self.recommendations`; a raised `KeyError` aborts the whole call. -/
def appendRecs (mk : GRow → Except String Advisory) :
    List GRow → List Advisory → Except String (List Advisory)
  | [], acc => Except.ok acc
  | r :: rs, acc =>
      match mk r with
      | Except.ok a => appendRecs mk rs (acc ++ [a])
      | Except.error e => Except.error e

/-- Rule 1 (lines 21-30): guarded by the presence of the ACOS column;
filters rows with `ACOS > 50`. -/
def rule1Step (kd : KwFrame) (acc : List Advisory) :
    Except String (List Advisory) :=
  if kd.hasACOSCol then
    let mrows := kd.rows.filter (fun r => decide ((50 : ℚ) < r.acos))
    if mrows.isEmpty then Except.ok acc else appendRecs (mkRule1 kd) mrows acc
  else Except.ok acc

/-- Rule 2 (lines 35-44): guarded by CTR and Total_Impressions columns;
filters rows with `CTR < 1` and `Total_Impressions > 1000`. -/
def rule2Step (kd : KwFrame) (acc : List Advisory) :
    Except String (List Advisory) :=
  if kd.hasCTRCol && kd.hasTotalImpressionsCol then
    let mrows := kd.rows.filter
      (fun r => decide (r.ctr < 1 ∧ (1000 : ℚ) < r.totalImpressions))
    if mrows.isEmpty then Except.ok acc else appendRecs (mkRule2 kd) mrows acc
  else Except.ok acc

/-- Rule 3 (lines 47-58): guarded by ACOS and Total_Sales columns; filters
rows with `ACOS < 20` and `Total_Sales > 100`. -/
def rule3Step (kd : KwFrame) (acc : List Advisory) :
    Except String (List Advisory) :=
  if kd.hasACOSCol && kd.hasTotalSalesCol then
    let mrows := kd.rows.filter
      (fun r => decide (r.acos < 20 ∧ (100 : ℚ) < r.totalSales))
    if mrows.isEmpty then Except.ok acc else appendRecs (mkRule3 kd) mrows acc
  else Except.ok acc

/-- Rule 4 (lines 61-74): guarded by Total_Spend, Total_Orders and
Total_Clicks columns; filters rows with `Total_Spend > 50`,
`Total_Orders < 1` and `Total_Clicks > 10`. -/
def rule4Step (kd : KwFrame) (acc : List Advisory) :
    Except String (List Advisory) :=
  if kd.hasTotalSpendCol && kd.hasTotalOrdersCol && kd.hasTotalClicksCol then
    let mrows := kd.rows.filter
      (fun r => decide ((50 : ℚ) < r.totalSpend ∧ r.totalOrders < 1 ∧
                        (10 : ℚ) < r.totalClicks))
    if mrows.isEmpty then Except.ok acc else appendRecs (mkRule4 kd) mrows acc
  else Except.ok acc

/-- Lines 76-77: substitute the sentinel when no advisory was produced. -/
def joinOrSentinel (l : List Advisory) : List Advisory :=
  if l.isEmpty then [Advisory.sentinel] else l

/-- `RecommendationEngine.generate_recommendations` (lines 14-79): clears
the accumulated list, runs the four rules in order 1, 2, 3, 4, and
substitutes the fixed sentinel when no advisory was produced. -/
def generate_recommendations (kd : KwFrame) : Except String (List Advisory) :=
  match rule1Step kd [] with
  | Except.error e => Except.error e
  | Except.ok acc1 =>
    match rule2Step kd acc1 with
    | Except.error e => Except.error e
    | Except.ok acc2 =>
      match rule3Step kd acc2 with
      | Except.error e => Except.error e
      | Except.ok acc3 =>
        match rule4Step kd acc3 with
        | Except.error e => Except.error e
        | Except.ok acc4 =>
          Except.ok (joinOrSentinel acc4)

/-- The order-insensitive description of the contribution of rule 1. -/
def rule1Advisories (kd : KwFrame) : List Advisory :=
  if kd.hasACOSCol then
    (kd.rows.filter (fun r => decide ((50 : ℚ) < r.acos))).map
      (fun r => Advisory.highACOS r.keyword r.campaign r.acos)
  else []

def rule2Advisories (kd : KwFrame) : List Advisory :=
  if kd.hasCTRCol && kd.hasTotalImpressionsCol then
    (kd.rows.filter
      (fun r => decide (r.ctr < 1 ∧ (1000 : ℚ) < r.totalImpressions))).map
      (fun r => Advisory.lowCTR r.keyword r.campaign r.ctr)
  else []

def rule3Advisories (kd : KwFrame) : List Advisory :=
  if kd.hasACOSCol && kd.hasTotalSalesCol then
    (kd.rows.filter
      (fun r => decide (r.acos < 20 ∧ (100 : ℚ) < r.totalSales))).map
      (fun r => Advisory.highPerformer r.keyword r.campaign r.acos r.totalSales)
  else []

def rule4Advisories (kd : KwFrame) : List Advisory :=
  if kd.hasTotalSpendCol && kd.hasTotalOrdersCol && kd.hasTotalClicksCol then
    (kd.rows.filter
      (fun r => decide ((50 : ℚ) < r.totalSpend ∧ r.totalOrders < 1 ∧
                        (10 : ℚ) < r.totalClicks))).map
      (fun r => Advisory.ineffectiveSpend r.keyword r.campaign r.totalSpend)
  else []

/-- The contributions of all four rules, grouped by rule in rule order. -/
def allRuleAdvisories (kd : KwFrame) : List Advisory :=
  rule1Advisories kd ++ rule2Advisories kd ++ rule3Advisories kd ++
    rule4Advisories kd

/-- The whole request flow of `main.py` lines 155-168: construct the
engine, take the overall summary and the grouped table, and generate the
recommendations from the grouped table. -/
def run_pipeline (inp : PyInput) :
    Except String (Summary × KwFrame × List Advisory) :=
  match mkEngine inp with
  | Except.error e => Except.error e
  | Except.ok df =>
      let s := get_campaign_performance_summary df
      let kw := get_keyword_performance df
      match generate_recommendations kw with
      | Except.error e => Except.error e
      | Except.ok recs => Except.ok (s, kw, recs)

/-- `self.df = dataframe.copy()`: the engine slot receives an equal but
independent frame; later in-place writes to it cannot reach the caller. -/
def copyFrame (f : RawFrame) : RawFrame := f

/-- `MetricsAnalysisEngine.__init__` on an explicit dataframe heap: slot
`i` holds the caller frame; `dataframe.copy()` allocates a fresh slot and
`_preprocess_data` mutates only that fresh slot in place.  Returns the new
heap and the index of the engine frame (`self.df`). -/
def engineInitHeap (heap : List RawFrame) (i : Nat) : List RawFrame × Nat :=
  let dfIdx := heap.length
  let heap1 := heap ++ [copyFrame (heap.getD i emptyFrame)]
  (heap1.set dfIdx (preprocess_data (heap1.getD dfIdx emptyFrame)), dfIdx)

/-- `get_keyword_performance` on the heap: its only writes are the
in-place zero-fills of lines 109-112, which target `self.df` (the engine
slot), and only in the branch where both grouping columns exist. -/
def keywordPerformanceHeap (st : List RawFrame × Nat) :
    (List RawFrame × Nat) × KwFrame :=
  let heap := st.1
  let dfIdx := st.2
  let df := heap.getD dfIdx emptyFrame
  if df.hasKeyword && df.hasCampaign then
    ((heap.set dfIdx (ensureAggCols df), dfIdx), get_keyword_performance df)
  else (st, KwFrame.empty)

/-- The (campaign, keyword) value pair of a row. -/
def pairKey (r : RawRow) : Cell × Cell := (r.campaign, r.keyword)


/-- A raw row with no cell content: used as list-lookup default. -/
def blankRow : RawRow :=
  { impressions := Cell.null, clicks := Cell.null, spend := Cell.null,
    sales := Cell.null, orders := Cell.null, campaign := Cell.null,
    keyword := Cell.null, date := Cell.null }

/-- The single row of the worked spec example. -/
def row8 : RawRow :=
  { blankRow with
    impressions := Cell.num 1000, clicks := Cell.num 5, spend := Cell.num 100,
    sales := Cell.num 50, orders := Cell.num 0,
    campaign := Cell.str "A", keyword := Cell.str "kw1" }

/-- The worked spec example dataset. -/
def df8 : RawFrame :=
  { hasImpressions := true, hasClicks := true, hasSpend := true,
    hasSales := true, hasOrders := true, hasCampaign := true,
    hasKeyword := true, hasDate := false, rows := [row8] }

/-- An all-zero row under the dimensions (c, k). -/
def row1w : RawRow :=
  { blankRow with
    impressions := Cell.num 0, clicks := Cell.num 0, spend := Cell.num 0,
    sales := Cell.num 0, orders := Cell.num 0,
    campaign := Cell.str "c", keyword := Cell.str "k" }

def df1w : RawFrame :=
  { hasImpressions := true, hasClicks := true, hasSpend := true,
    hasSales := true, hasOrders := true, hasCampaign := true,
    hasKeyword := true, hasDate := false, rows := [row1w] }

/-- The grouped row produced for `df1w`: zero totals, zero ratios. -/
def g1w : GRow :=
  { campaign := Cell.str "c", keyword := Cell.str "k",
    totalImpressions := 0, totalClicks := 0, totalSpend := 0,
    totalSales := 0, totalOrders := 0,
    ctr := 0, cpc := 0, cvr := 0, acos := 0, roas := 0 }

def row2a : RawRow :=
  { blankRow with
    impressions := Cell.num 3, clicks := Cell.num 1, spend := Cell.num 2,
    sales := Cell.num 4, orders := Cell.num 1,
    campaign := Cell.str "A", keyword := Cell.str "k1" }

def row2b : RawRow :=
  { blankRow with
    impressions := Cell.num 4, clicks := Cell.num 0, spend := Cell.num 1,
    sales := Cell.num 0, orders := Cell.num 0,
    campaign := Cell.str "A", keyword := Cell.str "k1" }

def row2c : RawRow :=
  { blankRow with
    impressions := Cell.num 5, clicks := Cell.num 2, spend := Cell.num 3,
    sales := Cell.num 6, orders := Cell.num 1,
    campaign := Cell.str "B", keyword := Cell.str "k2" }

/-- A clean dataset with two distinct dimension pairs over three rows. -/
def df2w : RawFrame :=
  { hasImpressions := true, hasClicks := true, hasSpend := true,
    hasSales := true, hasOrders := true, hasCampaign := true,
    hasKeyword := true, hasDate := false, rows := [row2a, row2b, row2c] }

/-- A row whose campaign cell is NaN: groupby (dropna=True) drops it. -/
def row2bad : RawRow :=
  { blankRow with impressions := Cell.num 5,
                  campaign := Cell.null, keyword := Cell.str "k" }

/-- Both dimension columns exist, but the single row has a NaN campaign. -/
def df2bad : RawFrame :=
  { hasImpressions := true, hasClicks := false, hasSpend := false,
    hasSales := false, hasOrders := false, hasCampaign := true,
    hasKeyword := true, hasDate := false, rows := [row2bad] }

/-- A grouped row that satisfies the conditions of rules 1 and 4 but not
those of rules 2 and 3. -/
def g3w : GRow :=
  { campaign := Cell.str "c", keyword := Cell.str "k",
    totalImpressions := 500, totalClicks := 20, totalSpend := 60,
    totalSales := 0, totalOrders := 0,
    ctr := 2, cpc := 3, cvr := 0, acos := 60, roas := 0 }

/-- A full grouped table holding just `g3w`. -/
def kd3w : KwFrame :=
  { hasCampaignCol := true, hasKeywordCol := true,
    hasTotalImpressionsCol := true, hasTotalClicksCol := true,
    hasTotalSpendCol := true, hasTotalSalesCol := true,
    hasTotalOrdersCol := true, hasCTRCol := true, hasCPCCol := true,
    hasCVRCol := true, hasACOSCol := true, hasROASCol := true,
    rows := [g3w] }

/-- A grouped row with ACOS above the rule-1 threshold. -/
def g6bad : GRow :=
  { campaign := Cell.null, keyword := Cell.null,
    totalImpressions := 0, totalClicks := 0, totalSpend := 0,
    totalSales := 0, totalOrders := 0,
    ctr := 0, cpc := 0, cvr := 0, acos := 100, roas := 0 }

/-- A grouped table holding an ACOS column and a matching row, but neither
dimension column: the guard of rule 1 passes and the row read then raises. -/
def kd6bad : KwFrame :=
  { hasCampaignCol := false, hasKeywordCol := false,
    hasTotalImpressionsCol := false, hasTotalClicksCol := false,
    hasTotalSpendCol := false, hasTotalSalesCol := false,
    hasTotalOrdersCol := false, hasCTRCol := false, hasCPCCol := false,
    hasCVRCol := false, hasACOSCol := true, hasROASCol := false,
    rows := [g6bad] }

/-- A grouped row matching the condition of rule 2, with an ACOS value that
would match rule 1 if the ACOS column were present. -/
def g6w : GRow :=
  { campaign := Cell.str "c", keyword := Cell.str "k",
    totalImpressions := 2000, totalClicks := 10, totalSpend := 0,
    totalSales := 0, totalOrders := 0,
    ctr := 1/2, cpc := 0, cvr := 0, acos := 999, roas := 0 }

/-- A grouped table with both dimension columns and the rule-2 columns, but
without the ACOS, Total_Sales, Total_Spend, Total_Orders and Total_Clicks
columns: rules 1, 3 and 4 are skipped, rule 2 still fires. -/
def kd6w : KwFrame :=
  { hasCampaignCol := true, hasKeywordCol := true,
    hasTotalImpressionsCol := true, hasTotalClicksCol := false,
    hasTotalSpendCol := false, hasTotalSalesCol := false,
    hasTotalOrdersCol := false, hasCTRCol := true, hasCPCCol := false,
    hasCVRCol := false, hasACOSCol := false, hasROASCol := false,
    rows := [g6w] }

/-- A dataset with one row but no keyword column. -/
def df6nd : RawFrame :=
  { hasImpressions := true, hasClicks := false, hasSpend := false,
    hasSales := false, hasOrders := false, hasCampaign := true,
    hasKeyword := false, hasDate := false,
    rows := [{ blankRow with impressions := Cell.num 7,
                             campaign := Cell.str "A" }] }

/-- A dirty caller frame: the impressions cell is a non-numeric string
that preprocessing would rewrite to 0 in the engine copy. -/
def df9w : RawFrame :=
  { hasImpressions := true, hasClicks := false, hasSpend := false,
    hasSales := false, hasOrders := false, hasCampaign := true,
    hasKeyword := true, hasDate := false,
    rows := [{ blankRow with impressions := Cell.str "oops",
                             campaign := Cell.str "A",
                             keyword := Cell.str "k" }] }

/-- A grouped row matching no rule: ACOS 30 (neither above 50 nor below
20), CTR 5, spend 10, one order. -/
def g5w : GRow :=
  { campaign := Cell.str "c", keyword := Cell.str "k",
    totalImpressions := 100, totalClicks := 5, totalSpend := 10,
    totalSales := 0, totalOrders := 1,
    ctr := 5, cpc := 2, cvr := 20, acos := 30, roas := 0 }

/-- A full grouped table whose single row satisfies no rule condition. -/
def kd5w : KwFrame :=
  { hasCampaignCol := true, hasKeywordCol := true,
    hasTotalImpressionsCol := true, hasTotalClicksCol := true,
    hasTotalSpendCol := true, hasTotalSalesCol := true,
    hasTotalOrdersCol := true, hasCTRCol := true, hasCPCCol := true,
    hasCVRCol := true, hasACOSCol := true, hasROASCol := true,
    rows := [g5w] }

/-- A dataset whose impressions, clicks, spend and sales totals are all
negative. -/
def df10w : RawFrame :=
  { hasImpressions := true, hasClicks := true, hasSpend := true,
    hasSales := true, hasOrders := true, hasCampaign := true,
    hasKeyword := true, hasDate := false,
    rows := [{ blankRow with
               impressions := Cell.num (-200), clicks := Cell.num (-5),
               spend := Cell.num (-30), sales := Cell.num (-40),
               orders := Cell.num 2,
               campaign := Cell.str "A", keyword := Cell.str "k" }] }

theorem coerce_num (q : ℚ) : coerce (Cell.num q) = q := rfl

theorem normalizeEF_fdiv_zero (a : ℚ) : normalizeEF (fdiv a 0) = 0 := by
  by_cases h : a = 0 <;> by_cases h2 : 0 < a <;>
    simp [fdiv, normalizeEF, h, h2]

theorem normalizeEF_efScale_fdiv_zero (a : ℚ) :
    normalizeEF (efScale (fdiv a 0)) = 0 := by
  by_cases h : a = 0 <;> by_cases h2 : 0 < a <;>
    simp [fdiv, efScale, normalizeEF, h, h2]

theorem appendRecs_ok (mk : GRow → Except String Advisory) (g : GRow → Advisory) :
    ∀ (rows : List GRow) (acc : List Advisory),
      (∀ r ∈ rows, mk r = Except.ok (g r)) →
      appendRecs mk rows acc = Except.ok (acc ++ rows.map g)
  | [], acc, _ => by simp [appendRecs]
  | r :: rs, acc, h => by
      have hr : mk r = Except.ok (g r) := h r (by simp)
      have ih := appendRecs_ok mk g rs (acc ++ [g r])
        (fun x hx => h x (by simp [hx]))
      simp only [appendRecs, hr, ih, List.map_cons]
      simp

theorem mkRule1_ok (kd : KwFrame) (r : GRow)
    (hk : kd.hasKeywordCol = true) (hc : kd.hasCampaignCol = true) :
    mkRule1 kd r = Except.ok (Advisory.highACOS r.keyword r.campaign r.acos) := by
  simp [mkRule1, readKeyword, readCampaign, hk, hc]

theorem mkRule2_ok (kd : KwFrame) (r : GRow)
    (hk : kd.hasKeywordCol = true) (hc : kd.hasCampaignCol = true) :
    mkRule2 kd r = Except.ok (Advisory.lowCTR r.keyword r.campaign r.ctr) := by
  simp [mkRule2, readKeyword, readCampaign, hk, hc]

theorem mkRule3_ok (kd : KwFrame) (r : GRow)
    (hk : kd.hasKeywordCol = true) (hc : kd.hasCampaignCol = true) :
    mkRule3 kd r =
      Except.ok (Advisory.highPerformer r.keyword r.campaign r.acos r.totalSales) := by
  simp [mkRule3, readKeyword, readCampaign, hk, hc]

theorem mkRule4_ok (kd : KwFrame) (r : GRow)
    (hk : kd.hasKeywordCol = true) (hc : kd.hasCampaignCol = true) :
    mkRule4 kd r =
      Except.ok (Advisory.ineffectiveSpend r.keyword r.campaign r.totalSpend) := by
  simp [mkRule4, readKeyword, readCampaign, hk, hc]

theorem rule1Step_eq (kd : KwFrame) (acc : List Advisory)
    (hk : kd.hasKeywordCol = true) (hc : kd.hasCampaignCol = true) :
    rule1Step kd acc = Except.ok (acc ++ rule1Advisories kd) := by
  by_cases hA : kd.hasACOSCol
  · simp only [rule1Step, rule1Advisories, hA, if_true]
    by_cases he : (kd.rows.filter (fun r => decide ((50 : ℚ) < r.acos))).isEmpty
    · rw [if_pos he, List.isEmpty_iff.mp he]
      simp
    · rw [if_neg he,
          appendRecs_ok (mkRule1 kd)
            (fun r => Advisory.highACOS r.keyword r.campaign r.acos) _ acc
            (fun r _ => mkRule1_ok kd r hk hc)]
  · simp [rule1Step, rule1Advisories, hA]

theorem rule2Step_eq (kd : KwFrame) (acc : List Advisory)
    (hk : kd.hasKeywordCol = true) (hc : kd.hasCampaignCol = true) :
    rule2Step kd acc = Except.ok (acc ++ rule2Advisories kd) := by
  by_cases hA : kd.hasCTRCol && kd.hasTotalImpressionsCol
  · simp only [rule2Step, rule2Advisories, hA, if_true]
    by_cases he : (kd.rows.filter
        (fun r => decide (r.ctr < 1 ∧ (1000 : ℚ) < r.totalImpressions))).isEmpty
    · rw [if_pos he, List.isEmpty_iff.mp he]
      simp
    · rw [if_neg he,
          appendRecs_ok (mkRule2 kd)
            (fun r => Advisory.lowCTR r.keyword r.campaign r.ctr) _ acc
            (fun r _ => mkRule2_ok kd r hk hc)]
  · simp [rule2Step, rule2Advisories, hA]

theorem rule3Step_eq (kd : KwFrame) (acc : List Advisory)
    (hk : kd.hasKeywordCol = true) (hc : kd.hasCampaignCol = true) :
    rule3Step kd acc = Except.ok (acc ++ rule3Advisories kd) := by
  by_cases hA : kd.hasACOSCol && kd.hasTotalSalesCol
  · simp only [rule3Step, rule3Advisories, hA, if_true]
    by_cases he : (kd.rows.filter
        (fun r => decide (r.acos < 20 ∧ (100 : ℚ) < r.totalSales))).isEmpty
    · rw [if_pos he, List.isEmpty_iff.mp he]
      simp
    · rw [if_neg he,
          appendRecs_ok (mkRule3 kd)
            (fun r => Advisory.highPerformer r.keyword r.campaign r.acos r.totalSales)
            _ acc (fun r _ => mkRule3_ok kd r hk hc)]
  · simp [rule3Step, rule3Advisories, hA]

theorem rule4Step_eq (kd : KwFrame) (acc : List Advisory)
    (hk : kd.hasKeywordCol = true) (hc : kd.hasCampaignCol = true) :
    rule4Step kd acc = Except.ok (acc ++ rule4Advisories kd) := by
  by_cases hA : kd.hasTotalSpendCol && kd.hasTotalOrdersCol && kd.hasTotalClicksCol
  · simp only [rule4Step, rule4Advisories, hA, if_true]
    by_cases he : (kd.rows.filter
        (fun r => decide ((50 : ℚ) < r.totalSpend ∧ r.totalOrders < 1 ∧
                          (10 : ℚ) < r.totalClicks))).isEmpty
    · rw [if_pos he, List.isEmpty_iff.mp he]
      simp
    · rw [if_neg he,
          appendRecs_ok (mkRule4 kd)
            (fun r => Advisory.ineffectiveSpend r.keyword r.campaign r.totalSpend)
            _ acc (fun r _ => mkRule4_ok kd r hk hc)]
  · simp [rule4Step, rule4Advisories, hA]

/-- On a grouped table that has its two dimension columns, the generator
never raises and returns exactly the contributions of the four rules in rule
order, or the sentinel when all four contribute nothing. -/
theorem generate_eq_of_dims (kd : KwFrame)
    (hk : kd.hasKeywordCol = true) (hc : kd.hasCampaignCol = true) :
    generate_recommendations kd =
      Except.ok (joinOrSentinel (allRuleAdvisories kd)) := by
  simp only [generate_recommendations,
    rule1Step_eq kd [] hk hc, rule2Step_eq _ _ hk hc,
    rule3Step_eq _ _ hk hc, rule4Step_eq _ _ hk hc]
  simp [allRuleAdvisories, joinOrSentinel]

theorem generate_empty :
    generate_recommendations KwFrame.empty = Except.ok [Advisory.sentinel] := rfl

theorem filterMap_eq_map_of_mem {α β : Type} (fo : α → Option β) (g : α → β) :
    ∀ l : List α, (∀ x ∈ l, fo x = some (g x)) → l.filterMap fo = l.map g
  | [], _ => rfl
  | x :: xs, h => by
      have hx : fo x = some (g x) := h x (by simp)
      have ih := filterMap_eq_map_of_mem fo g xs (fun y hy => h y (by simp [hy]))
      simp [List.filterMap_cons, hx, ih]

theorem sum_map_filter_split {α : Type} (p : α → Bool) (f : α → ℚ) :
    ∀ l : List α,
      ((l.filter p).map f).sum + ((l.filter (fun x => !(p x))).map f).sum =
        (l.map f).sum
  | [] => by simp
  | x :: xs => by
      have ih := sum_map_filter_split p f xs
      by_cases hx : p x
      · simp only [List.filter_cons, hx]
        simp only [Bool.not_true, List.map_cons, List.sum_cons, if_true, if_false]
        simp only [show (false = true) = False by simp, if_false]
        linarith [ih]
      · have hx' : p x = false := by simpa using hx
        simp only [List.filter_cons, hx']
        simp only [Bool.not_false, List.map_cons, List.sum_cons]
        simp only [show (false = true) = False by simp, if_false, if_true]
        simp only [List.map_cons, List.sum_cons]
        linarith [ih]

theorem sum_partition {α β : Type} [DecidableEq β] (key : α → β) (f : α → ℚ) :
    ∀ (ks : List β) (l : List α), ks.Nodup → (∀ x ∈ l, key x ∈ ks) →
      (ks.map (fun k =>
        ((l.filter (fun x => decide (key x = k))).map f).sum)).sum =
      (l.map f).sum
  | [], l, _, hcov => by
      cases l with
      | nil => simp
      | cons a t => exact absurd (hcov a (by simp)) (by simp)
  | k :: ks, l, hnd, hcov => by
      have hk : k ∉ ks := (List.nodup_cons.mp hnd).1
      have hnd' : ks.Nodup := (List.nodup_cons.mp hnd).2
      have hcov' : ∀ x ∈ l.filter (fun x => !(decide (key x = k))), key x ∈ ks := by
        intro x hx
        rcases List.mem_filter.mp hx with ⟨hxl, hxk⟩
        have hne : key x ≠ k := by simpa using hxk
        rcases List.mem_cons.mp (hcov x hxl) with h | h
        · exact absurd h hne
        · exact h
      have ih := sum_partition key f ks (l.filter (fun x => !(decide (key x = k))))
        hnd' hcov'
      have hmaps : ks.map (fun q =>
          (((l.filter (fun x => !(decide (key x = k)))).filter
              (fun x => decide (key x = q))).map f).sum) =
          ks.map (fun q =>
            ((l.filter (fun x => decide (key x = q))).map f).sum) := by
        refine List.map_congr_left ?_
        intro q hq
        have hqk : q ≠ k := fun hqe => hk (hqe ▸ hq)
        rw [List.filter_filter]
        have hpt : ∀ x ∈ l, (decide (key x = q) && !(decide (key x = k))) =
            decide (key x = q) := by
          intro x _
          by_cases hxq : key x = q
          · simp [hxq, hqk]
          · simp [hxq]
        rw [List.filter_congr hpt]
      have hrest : (ks.map (fun q =>
          ((l.filter (fun x => decide (key x = q))).map f).sum)).sum =
          ((l.filter (fun x => !(decide (key x = k)))).map f).sum := by
        rw [← ih]
        exact congrArg List.sum hmaps.symm
      rw [List.map_cons, List.sum_cons, hrest]
      exact sum_map_filter_split (fun x => decide (key x = k)) f l

theorem sum_map_comp_proj {α β : Type} (l : List α) (g : α → β) (f : β → ℚ) :
    ((l.map g).map f).sum = (l.map (fun x => f (g x))).sum := by
  rw [List.map_map]
  rfl

theorem total_impressions_preprocess (df : RawFrame) :
    get_total_impressions (preprocess_data df) =
      if df.hasImpressions then (df.rows.map (fun r => coerce r.impressions)).sum
      else 0 := by
  by_cases h : df.hasImpressions
  · simp only [get_total_impressions, preprocess_data, List.map_map, h, if_true]
    refine congrArg List.sum (List.map_congr_left ?_)
    intro r _
    simp [Function.comp, preprocessRow, coerce, h]
  · simp only [get_total_impressions, preprocess_data, List.map_map, h,
      if_false, Bool.false_eq_true]
    refine List.sum_eq_zero ?_
    intro x hx
    rcases List.mem_map.mp hx with ⟨r, _, rfl⟩
    simp [Function.comp, preprocessRow, coerce, h]

theorem total_clicks_preprocess (df : RawFrame) :
    get_total_clicks (preprocess_data df) =
      if df.hasClicks then (df.rows.map (fun r => coerce r.clicks)).sum
      else 0 := by
  by_cases h : df.hasClicks
  · simp only [get_total_clicks, preprocess_data, List.map_map, h, if_true]
    refine congrArg List.sum (List.map_congr_left ?_)
    intro r _
    simp [Function.comp, preprocessRow, coerce, h]
  · simp only [get_total_clicks, preprocess_data, List.map_map, h,
      if_false, Bool.false_eq_true]
    refine List.sum_eq_zero ?_
    intro x hx
    rcases List.mem_map.mp hx with ⟨r, _, rfl⟩
    simp [Function.comp, preprocessRow, coerce, h]

theorem total_spend_preprocess (df : RawFrame) :
    get_total_spend (preprocess_data df) =
      if df.hasSpend then (df.rows.map (fun r => coerce r.spend)).sum
      else 0 := by
  by_cases h : df.hasSpend
  · simp only [get_total_spend, preprocess_data, List.map_map, h, if_true]
    refine congrArg List.sum (List.map_congr_left ?_)
    intro r _
    simp [Function.comp, preprocessRow, coerce, h]
  · simp only [get_total_spend, preprocess_data, List.map_map, h,
      if_false, Bool.false_eq_true]
    refine List.sum_eq_zero ?_
    intro x hx
    rcases List.mem_map.mp hx with ⟨r, _, rfl⟩
    simp [Function.comp, preprocessRow, coerce, h]

theorem total_sales_preprocess (df : RawFrame) :
    get_total_sales (preprocess_data df) =
      if df.hasSales then (df.rows.map (fun r => coerce r.sales)).sum
      else 0 := by
  by_cases h : df.hasSales
  · simp only [get_total_sales, preprocess_data, List.map_map, h, if_true]
    refine congrArg List.sum (List.map_congr_left ?_)
    intro r _
    simp [Function.comp, preprocessRow, coerce, h]
  · simp only [get_total_sales, preprocess_data, List.map_map, h,
      if_false, Bool.false_eq_true]
    refine List.sum_eq_zero ?_
    intro x hx
    rcases List.mem_map.mp hx with ⟨r, _, rfl⟩
    simp [Function.comp, preprocessRow, coerce, h]

theorem total_orders_preprocess (df : RawFrame) :
    get_total_orders (preprocess_data df) =
      if df.hasOrders then (df.rows.map (fun r => coerce r.orders)).sum
      else 0 := by
  by_cases h : df.hasOrders
  · simp only [get_total_orders, preprocess_data, List.map_map, h, if_true]
    refine congrArg List.sum (List.map_congr_left ?_)
    intro r _
    simp [Function.comp, preprocessRow, coerce, h]
  · simp only [get_total_orders, preprocess_data, List.map_map, h,
      if_false, Bool.false_eq_true]
    refine List.sum_eq_zero ?_
    intro x hx
    rcases List.mem_map.mp hx with ⟨r, _, rfl⟩
    simp [Function.comp, preprocessRow, coerce, h]

theorem rowKey_preprocessRow (f : RawFrame) (r : RawRow) :
    rowKey (preprocessRow f r) = rowKey r := rfl

theorem pairKey_preprocessRow (f : RawFrame) (r : RawRow) :
    pairKey (preprocessRow f r) = pairKey r := rfl

theorem rowKey_eq_pairKey (r : RawRow)
    (hc : r.campaign ≠ Cell.null) (hk : r.keyword ≠ Cell.null) :
    rowKey r = some (pairKey r) := by
  unfold rowKey pairKey
  cases h1 : r.campaign <;> cases h2 : r.keyword <;> simp_all

theorem ensureAggCols_preprocess (f : RawFrame) :
    ensureAggCols (preprocess_data f) = preprocess_data f := by
  simp [ensureAggCols, zeroImpressionsCol, zeroClicksCol, zeroSpendCol,
    zeroSalesCol, zeroOrdersCol, preprocess_data]

theorem mkGroup_campaign (rows : List RawRow) (key : Cell × Cell) :
    (mkGroup rows key).campaign = key.1 := rfl

theorem mkGroup_keyword (rows : List RawRow) (key : Cell × Cell) :
    (mkGroup rows key).keyword = key.2 := rfl

theorem mkGroup_totalImpressions (rows : List RawRow) (key : Cell × Cell) :
    (mkGroup rows key).totalImpressions =
      ((groupRows rows key).map (fun r => coerce r.impressions)).sum := rfl

theorem mkGroup_totalClicks (rows : List RawRow) (key : Cell × Cell) :
    (mkGroup rows key).totalClicks =
      ((groupRows rows key).map (fun r => coerce r.clicks)).sum := rfl

theorem mkGroup_totalSpend (rows : List RawRow) (key : Cell × Cell) :
    (mkGroup rows key).totalSpend =
      ((groupRows rows key).map (fun r => coerce r.spend)).sum := rfl

theorem mkGroup_totalSales (rows : List RawRow) (key : Cell × Cell) :
    (mkGroup rows key).totalSales =
      ((groupRows rows key).map (fun r => coerce r.sales)).sum := rfl

theorem mkGroup_totalOrders (rows : List RawRow) (key : Cell × Cell) :
    (mkGroup rows key).totalOrders =
      ((groupRows rows key).map (fun r => coerce r.orders)).sum := rfl

theorem mkGroup_ctr (rows : List RawRow) (key : Cell × Cell) :
    (mkGroup rows key).ctr =
      normalizeEF (efScale (fdiv (mkGroup rows key).totalClicks
        (mkGroup rows key).totalImpressions)) := rfl

theorem mkGroup_cpc (rows : List RawRow) (key : Cell × Cell) :
    (mkGroup rows key).cpc =
      normalizeEF (fdiv (mkGroup rows key).totalSpend
        (mkGroup rows key).totalClicks) := rfl

theorem mkGroup_cvr (rows : List RawRow) (key : Cell × Cell) :
    (mkGroup rows key).cvr =
      normalizeEF (efScale (fdiv (mkGroup rows key).totalOrders
        (mkGroup rows key).totalClicks)) := rfl

theorem mkGroup_acos (rows : List RawRow) (key : Cell × Cell) :
    (mkGroup rows key).acos =
      normalizeEF (efScale (fdiv (mkGroup rows key).totalSpend
        (mkGroup rows key).totalSales)) := rfl

theorem mkGroup_roas (rows : List RawRow) (key : Cell × Cell) :
    (mkGroup rows key).roas =
      normalizeEF (fdiv (mkGroup rows key).totalSales
        (mkGroup rows key).totalSpend) := rfl

theorem kwp_of_dims (df : RawFrame)
    (hK : df.hasKeyword = true) (hC : df.hasCampaign = true) :
    get_keyword_performance df =
      { hasCampaignCol := true, hasKeywordCol := true,
        hasTotalImpressionsCol := true, hasTotalClicksCol := true,
        hasTotalSpendCol := true, hasTotalSalesCol := true,
        hasTotalOrdersCol := true, hasCTRCol := true, hasCPCCol := true,
        hasCVRCol := true, hasACOSCol := true, hasROASCol := true,
        rows := (((ensureAggCols df).rows.filterMap rowKey).dedup).map
          (mkGroup (ensureAggCols df).rows) } := by
  simp [get_keyword_performance, hK, hC]

theorem kwp_no_dims (df : RawFrame)
    (h : (df.hasKeyword && df.hasCampaign) = false) :
    get_keyword_performance df = KwFrame.empty := by
  simp [get_keyword_performance, h]

theorem joinOrSentinel_ne_nil (l : List Advisory) : joinOrSentinel l ≠ [] := by
  unfold joinOrSentinel
  by_cases he : l.isEmpty
  · simp [he]
  · rw [if_neg he]
    intro hnil
    exact he (by simp [hnil])

theorem readKeyword_ok {kd : KwFrame} {r : GRow} {c : Cell}
    (h : readKeyword kd r = Except.ok c) : c = r.keyword := by
  unfold readKeyword at h
  split at h
  · exact (Except.ok.inj h).symm
  · simp at h

theorem readCampaign_ok {kd : KwFrame} {r : GRow} {c : Cell}
    (h : readCampaign kd r = Except.ok c) : c = r.campaign := by
  unfold readCampaign at h
  split at h
  · exact (Except.ok.inj h).symm
  · simp at h

theorem mkRule1_ok_inv {kd : KwFrame} {r : GRow} {a : Advisory}
    (h : mkRule1 kd r = Except.ok a) :
    a = Advisory.highACOS r.keyword r.campaign r.acos := by
  by_cases hk : kd.hasKeywordCol
  · by_cases hc : kd.hasCampaignCol
    · rw [mkRule1_ok kd r hk hc] at h
      exact (Except.ok.inj h).symm
    · have hcf : kd.hasCampaignCol = false := by simpa using hc
      simp [mkRule1, readKeyword, readCampaign, hk, hcf] at h
  · have hkf : kd.hasKeywordCol = false := by simpa using hk
    simp [mkRule1, readKeyword, readCampaign, hkf] at h

theorem mkRule2_ok_inv {kd : KwFrame} {r : GRow} {a : Advisory}
    (h : mkRule2 kd r = Except.ok a) :
    a = Advisory.lowCTR r.keyword r.campaign r.ctr := by
  by_cases hk : kd.hasKeywordCol
  · by_cases hc : kd.hasCampaignCol
    · rw [mkRule2_ok kd r hk hc] at h
      exact (Except.ok.inj h).symm
    · have hcf : kd.hasCampaignCol = false := by simpa using hc
      simp [mkRule2, readKeyword, readCampaign, hk, hcf] at h
  · have hkf : kd.hasKeywordCol = false := by simpa using hk
    simp [mkRule2, readKeyword, readCampaign, hkf] at h

theorem mkRule3_ok_inv {kd : KwFrame} {r : GRow} {a : Advisory}
    (h : mkRule3 kd r = Except.ok a) :
    a = Advisory.highPerformer r.keyword r.campaign r.acos r.totalSales := by
  by_cases hk : kd.hasKeywordCol
  · by_cases hc : kd.hasCampaignCol
    · rw [mkRule3_ok kd r hk hc] at h
      exact (Except.ok.inj h).symm
    · have hcf : kd.hasCampaignCol = false := by simpa using hc
      simp [mkRule3, readKeyword, readCampaign, hk, hcf] at h
  · have hkf : kd.hasKeywordCol = false := by simpa using hk
    simp [mkRule3, readKeyword, readCampaign, hkf] at h

theorem mkRule4_ok_inv {kd : KwFrame} {r : GRow} {a : Advisory}
    (h : mkRule4 kd r = Except.ok a) :
    a = Advisory.ineffectiveSpend r.keyword r.campaign r.totalSpend := by
  by_cases hk : kd.hasKeywordCol
  · by_cases hc : kd.hasCampaignCol
    · rw [mkRule4_ok kd r hk hc] at h
      exact (Except.ok.inj h).symm
    · have hcf : kd.hasCampaignCol = false := by simpa using hc
      simp [mkRule4, readKeyword, readCampaign, hk, hcf] at h
  · have hkf : kd.hasKeywordCol = false := by simpa using hk
    simp [mkRule4, readKeyword, readCampaign, hkf] at h

theorem appendRecs_ok_inv (mk : GRow → Except String Advisory)
    (g : GRow → Advisory) (hg : ∀ r a, mk r = Except.ok a → a = g r) :
    ∀ (rows : List GRow) (acc out : List Advisory),
      appendRecs mk rows acc = Except.ok out → out = acc ++ rows.map g
  | [], acc, out, h => by
      simp only [appendRecs, Except.ok.injEq] at h
      simp [← h]
  | r :: rs, acc, out, h => by
      cases hmk : mk r with
      | error e => simp [appendRecs, hmk] at h
      | ok a =>
          simp only [appendRecs, hmk] at h
          have ih := appendRecs_ok_inv mk g hg rs (acc ++ [a]) out h
          rw [ih, hg r a hmk]
          simp

theorem rule1Step_ok_inv {kd : KwFrame} {acc out : List Advisory}
    (h : rule1Step kd acc = Except.ok out) :
    out = acc ++ rule1Advisories kd := by
  by_cases hA : kd.hasACOSCol
  · simp only [rule1Step, hA, if_true] at h
    by_cases he : (kd.rows.filter (fun r => decide ((50 : ℚ) < r.acos))).isEmpty
    · rw [if_pos he] at h
      rw [← Except.ok.inj h]
      simp [rule1Advisories, hA, List.isEmpty_iff.mp he]
    · rw [if_neg he] at h
      have hout := appendRecs_ok_inv (mkRule1 kd)
        (fun r => Advisory.highACOS r.keyword r.campaign r.acos)
        (fun r a hra => mkRule1_ok_inv hra) _ acc out h
      rw [hout]
      simp [rule1Advisories, hA]
  · have hAf : kd.hasACOSCol = false := by simpa using hA
    simp only [rule1Step, hAf, Bool.false_eq_true, if_false] at h
    rw [← Except.ok.inj h]
    simp [rule1Advisories, hAf]

theorem rule2Step_ok_inv {kd : KwFrame} {acc out : List Advisory}
    (h : rule2Step kd acc = Except.ok out) :
    out = acc ++ rule2Advisories kd := by
  by_cases hA : kd.hasCTRCol && kd.hasTotalImpressionsCol
  · simp only [rule2Step, hA, if_true] at h
    by_cases he : (kd.rows.filter
        (fun r => decide (r.ctr < 1 ∧ (1000 : ℚ) < r.totalImpressions))).isEmpty
    · rw [if_pos he] at h
      rw [← Except.ok.inj h]
      simp only [rule2Advisories, hA, if_true, List.isEmpty_iff.mp he,
        List.map_nil, List.append_nil]
    · rw [if_neg he] at h
      have hout := appendRecs_ok_inv (mkRule2 kd)
        (fun r => Advisory.lowCTR r.keyword r.campaign r.ctr)
        (fun r a hra => mkRule2_ok_inv hra) _ acc out h
      rw [hout]
      simp [rule2Advisories, hA]
  · have hAf : (kd.hasCTRCol && kd.hasTotalImpressionsCol) = false := by
      simpa using hA
    simp only [rule2Step, hAf, Bool.false_eq_true, if_false] at h
    rw [← Except.ok.inj h]
    simp [rule2Advisories, hAf]

theorem rule3Step_ok_inv {kd : KwFrame} {acc out : List Advisory}
    (h : rule3Step kd acc = Except.ok out) :
    out = acc ++ rule3Advisories kd := by
  by_cases hA : kd.hasACOSCol && kd.hasTotalSalesCol
  · simp only [rule3Step, hA, if_true] at h
    by_cases he : (kd.rows.filter
        (fun r => decide (r.acos < 20 ∧ (100 : ℚ) < r.totalSales))).isEmpty
    · rw [if_pos he] at h
      rw [← Except.ok.inj h]
      simp only [rule3Advisories, hA, if_true, List.isEmpty_iff.mp he,
        List.map_nil, List.append_nil]
    · rw [if_neg he] at h
      have hout := appendRecs_ok_inv (mkRule3 kd)
        (fun r => Advisory.highPerformer r.keyword r.campaign r.acos r.totalSales)
        (fun r a hra => mkRule3_ok_inv hra) _ acc out h
      rw [hout]
      simp [rule3Advisories, hA]
  · have hAf : (kd.hasACOSCol && kd.hasTotalSalesCol) = false := by
      simpa using hA
    simp only [rule3Step, hAf, Bool.false_eq_true, if_false] at h
    rw [← Except.ok.inj h]
    simp [rule3Advisories, hAf]

theorem rule4Step_ok_inv {kd : KwFrame} {acc out : List Advisory}
    (h : rule4Step kd acc = Except.ok out) :
    out = acc ++ rule4Advisories kd := by
  by_cases hA : kd.hasTotalSpendCol && kd.hasTotalOrdersCol &&
      kd.hasTotalClicksCol
  · simp only [rule4Step, hA, if_true] at h
    by_cases he : (kd.rows.filter
        (fun r => decide ((50 : ℚ) < r.totalSpend ∧ r.totalOrders < 1 ∧
                          (10 : ℚ) < r.totalClicks))).isEmpty
    · rw [if_pos he] at h
      rw [← Except.ok.inj h]
      simp only [rule4Advisories, hA, if_true, List.isEmpty_iff.mp he,
        List.map_nil, List.append_nil]
    · rw [if_neg he] at h
      have hout := appendRecs_ok_inv (mkRule4 kd)
        (fun r => Advisory.ineffectiveSpend r.keyword r.campaign r.totalSpend)
        (fun r a hra => mkRule4_ok_inv hra) _ acc out h
      rw [hout]
      simp [rule4Advisories, hA]
  · have hAf : (kd.hasTotalSpendCol && kd.hasTotalOrdersCol &&
        kd.hasTotalClicksCol) = false := by simpa using hA
    simp only [rule4Step, hAf, Bool.false_eq_true, if_false] at h
    rw [← Except.ok.inj h]
    simp [rule4Advisories, hAf]

/-- Whenever the generator returns at all (no KeyError), the returned list
is exactly the four rule contributions in rule order, with the sentinel
substituted when the rules produced nothing. -/
theorem generate_ok_inv (kd : KwFrame) (l : List Advisory)
    (h : generate_recommendations kd = Except.ok l) :
    l = joinOrSentinel (allRuleAdvisories kd) := by
  unfold generate_recommendations at h
  split at h
  · simp at h
  · rename_i acc1 h1
    split at h
    · simp at h
    · rename_i acc2 h2
      split at h
      · simp at h
      · rename_i acc3 h3
        split at h
        · simp at h
        · rename_i acc4 h4
          rw [← Except.ok.inj h, rule4Step_ok_inv h4, rule3Step_ok_inv h3,
            rule2Step_ok_inv h2, rule1Step_ok_inv h1]
          simp [allRuleAdvisories]

/-- Claim C1: each of the five derived ratios, in the overall summary and
in every grouped row, is a finite rational (the grouped ratios pass
through the NaN/inf normalization, the overall ratios are guarded), and
whenever the denominator total of the ratio is zero the ratio is exactly 0. -/
theorem claim_C1_ratio_zero_guard (df : RawFrame) :
    (get_total_impressions (preprocess_data df) = 0 →
      calculate_ctr (preprocess_data df) = 0) ∧
    (get_total_clicks (preprocess_data df) = 0 →
      calculate_cpc (preprocess_data df) = 0 ∧
      calculate_cvr (preprocess_data df) = 0) ∧
    (get_total_sales (preprocess_data df) = 0 →
      calculate_acos (preprocess_data df) = 0) ∧
    (get_total_spend (preprocess_data df) = 0 →
      calculate_roas (preprocess_data df) = 0) ∧
    (∀ g ∈ (get_keyword_performance (preprocess_data df)).rows,
      (g.totalImpressions = 0 → g.ctr = 0) ∧
      (g.totalClicks = 0 → g.cpc = 0 ∧ g.cvr = 0) ∧
      (g.totalSales = 0 → g.acos = 0) ∧
      (g.totalSpend = 0 → g.roas = 0)) := by
  refine ⟨?_, ?_, ?_, ?_, ?_⟩
  · intro h; simp [calculate_ctr, h]
  · intro h
    exact ⟨by simp [calculate_cpc, h], by simp [calculate_cvr, h]⟩
  · intro h; simp [calculate_acos, h]
  · intro h; simp [calculate_roas, h]
  · intro g hg
    by_cases hd : ((preprocess_data df).hasKeyword &&
        (preprocess_data df).hasCampaign) = true
    · rw [kwp_of_dims _ (Bool.and_eq_true_iff.mp hd).1 (Bool.and_eq_true_iff.mp hd).2] at hg
      rcases List.mem_map.mp hg with ⟨k, _, rfl⟩
      refine ⟨?_, ?_, ?_, ?_⟩
      · intro h; rw [mkGroup_ctr, h]; exact normalizeEF_efScale_fdiv_zero _
      · intro h
        exact ⟨by rw [mkGroup_cpc, h]; exact normalizeEF_fdiv_zero _,
               by rw [mkGroup_cvr, h]; exact normalizeEF_efScale_fdiv_zero _⟩
      · intro h; rw [mkGroup_acos, h]; exact normalizeEF_efScale_fdiv_zero _
      · intro h; rw [mkGroup_roas, h]; exact normalizeEF_fdiv_zero _
    · rw [kwp_no_dims _ (by simpa using hd)] at hg
      simp [KwFrame.empty] at hg

/-- Witness for C1: on the all-zero dataset the overall CTR is 0 and the
single grouped row has CTR 0. -/
theorem claim_C1_witness :
    calculate_ctr (preprocess_data df1w) = 0 ∧ g1w.ctr = 0 := by
  have h := claim_C1_ratio_zero_guard df1w
  constructor
  · refine h.1 ?_
    norm_num [df1w, row1w, blankRow, get_total_impressions, preprocess_data,
      preprocessRow, coerce]
  · refine (h.2.2.2.2 g1w ?_).1 ?_
    · norm_num [df1w, row1w, blankRow, g1w, get_keyword_performance,
        preprocess_data, preprocessRow, ensureAggCols, zeroImpressionsCol,
        zeroClicksCol, zeroSpendCol, zeroSalesCol, zeroOrdersCol, rowKey,
        coerce, mkGroup, groupRows, List.dedup, List.pwFilter, fdiv, efScale,
        normalizeEF, List.filter, List.filterMap]
    · norm_num [g1w]

/-- Claim C4: each of the five totals equals the arithmetic sum of the
coerced column across all rows, and equals 0 when the column is absent. -/
theorem claim_C4_totals_are_column_sums (df : RawFrame) :
    get_total_impressions (preprocess_data df) =
      (if df.hasImpressions then (df.rows.map (fun r => coerce r.impressions)).sum
       else 0) ∧
    get_total_clicks (preprocess_data df) =
      (if df.hasClicks then (df.rows.map (fun r => coerce r.clicks)).sum
       else 0) ∧
    get_total_spend (preprocess_data df) =
      (if df.hasSpend then (df.rows.map (fun r => coerce r.spend)).sum
       else 0) ∧
    get_total_sales (preprocess_data df) =
      (if df.hasSales then (df.rows.map (fun r => coerce r.sales)).sum
       else 0) ∧
    get_total_orders (preprocess_data df) =
      (if df.hasOrders then (df.rows.map (fun r => coerce r.orders)).sum
       else 0) :=
  ⟨total_impressions_preprocess df, total_clicks_preprocess df,
   total_spend_preprocess df, total_sales_preprocess df,
   total_orders_preprocess df⟩

/-- Claim C10: coercion does not clamp negative numerics, and since every
overall-ratio guard tests strict positivity of the denominator total, a
negative denominator total also yields ratio 0. -/
theorem claim_C10_negative_denominator_zero :
    (∀ q : ℚ, coerce (Cell.num q) = q) ∧
    ∀ df : RawFrame,
      (get_total_impressions (preprocess_data df) < 0 →
        calculate_ctr (preprocess_data df) = 0) ∧
      (get_total_clicks (preprocess_data df) < 0 →
        calculate_cpc (preprocess_data df) = 0 ∧
        calculate_cvr (preprocess_data df) = 0) ∧
      (get_total_sales (preprocess_data df) < 0 →
        calculate_acos (preprocess_data df) = 0) ∧
      (get_total_spend (preprocess_data df) < 0 →
        calculate_roas (preprocess_data df) = 0) := by
  refine ⟨fun q => rfl, fun df => ⟨?_, ?_, ?_, ?_⟩⟩
  · intro h
    have hn : ¬ 0 < get_total_impressions (preprocess_data df) := by linarith
    simp [calculate_ctr, hn]
  · intro h
    have hn : ¬ 0 < get_total_clicks (preprocess_data df) := by linarith
    exact ⟨by simp [calculate_cpc, hn], by simp [calculate_cvr, hn]⟩
  · intro h
    have hn : ¬ 0 < get_total_sales (preprocess_data df) := by linarith
    simp [calculate_acos, hn]
  · intro h
    have hn : ¬ 0 < get_total_spend (preprocess_data df) := by linarith
    simp [calculate_roas, hn]

/-- Witness for C10 at a dataset with negative totals. -/
theorem claim_C10_witness :
    calculate_ctr (preprocess_data df10w) = 0 ∧
    calculate_cpc (preprocess_data df10w) = 0 ∧
    calculate_acos (preprocess_data df10w) = 0 ∧
    calculate_roas (preprocess_data df10w) = 0 := by
  have h := claim_C10_negative_denominator_zero.2 df10w
  have hI : get_total_impressions (preprocess_data df10w) < 0 := by
    norm_num [df10w, blankRow, get_total_impressions, preprocess_data,
      preprocessRow, coerce]
  have hC : get_total_clicks (preprocess_data df10w) < 0 := by
    norm_num [df10w, blankRow, get_total_clicks, preprocess_data,
      preprocessRow, coerce]
  have hSa : get_total_sales (preprocess_data df10w) < 0 := by
    norm_num [df10w, blankRow, get_total_sales, preprocess_data,
      preprocessRow, coerce]
  have hSp : get_total_spend (preprocess_data df10w) < 0 := by
    norm_num [df10w, blankRow, get_total_spend, preprocess_data,
      preprocessRow, coerce]
  exact ⟨h.1 hI, (h.2.1 hC).1, h.2.2.1 hSa, h.2.2.2 hSp⟩

/-- Claim C5: whenever the generator returns a list, that list is exactly
one fixed sentinel string when the four rules produced zero advisories,
and consequently the returned list is never empty. -/
theorem claim_C5_sentinel_on_zero_advisories (kd : KwFrame) (l : List Advisory)
    (h : generate_recommendations kd = Except.ok l) :
    (allRuleAdvisories kd = [] → l = [Advisory.sentinel]) ∧ l ≠ [] := by
  have hinv := generate_ok_inv kd l h
  constructor
  · intro hz
    rw [hinv, hz]
    rfl
  · rw [hinv]
    exact joinOrSentinel_ne_nil _

/-- Witness for C5: a full grouped table whose single row satisfies no
rule condition yields exactly the sentinel, a nonempty output. -/
theorem claim_C5_witness :
    generate_recommendations kd5w = Except.ok [Advisory.sentinel] ∧
    [Advisory.sentinel] ≠ ([] : List Advisory) := by
  have hgen : generate_recommendations kd5w = Except.ok [Advisory.sentinel] := by
    rw [generate_eq_of_dims kd5w rfl rfl]
    norm_num [joinOrSentinel, allRuleAdvisories, rule1Advisories,
      rule2Advisories, rule3Advisories, rule4Advisories, kd5w, g5w,
      List.filter]
  have h := claim_C5_sentinel_on_zero_advisories kd5w [Advisory.sentinel] hgen
  exact ⟨hgen, h.2⟩

/-- Claim C7: a non-DataFrame input is rejected immediately with the
input-validation error; for every structurally tabular input, however
dirty its cells, the whole pipeline (construction, summary, grouped
performance, recommendations) completes with a result. -/
theorem claim_C7_validation_and_totality :
    run_pipeline PyInput.other = Except.error "Input must be a pandas DataFrame" ∧
    ∀ f : RawFrame, ∃ out, run_pipeline (PyInput.frame f) = Except.ok out := by
  refine ⟨rfl, fun f => ?_⟩
  by_cases hd : ((preprocess_data f).hasKeyword &&
      (preprocess_data f).hasCampaign) = true
  · have h1 := kwp_of_dims (preprocess_data f)
      (Bool.and_eq_true_iff.mp hd).1 (Bool.and_eq_true_iff.mp hd).2
    have h2 := generate_eq_of_dims (get_keyword_performance (preprocess_data f))
      (by rw [h1]) (by rw [h1])
    refine ⟨(get_campaign_performance_summary (preprocess_data f),
             get_keyword_performance (preprocess_data f),
             joinOrSentinel (allRuleAdvisories
               (get_keyword_performance (preprocess_data f)))), ?_⟩
    simp only [run_pipeline, mkEngine]
    rw [h2]
  · have h1 := kwp_no_dims (preprocess_data f) (by simpa using hd)
    refine ⟨(get_campaign_performance_summary (preprocess_data f),
             get_keyword_performance (preprocess_data f),
             [Advisory.sentinel]), ?_⟩
    simp only [run_pipeline, mkEngine]
    rw [h1, generate_empty]

/-- Claim C3: on a grouped-row table (which per the data model carries its
two dimension columns), the generator evaluates the four rules in fixed
order 1, 2, 3, 4; each rule contributes one advisory per row matching its
condition, in table-row order, and the contributions appear grouped by
rule; a row matching several rules yields one advisory per matched rule. -/
theorem claim_C3_fixed_rule_order (kd : KwFrame)
    (hk : kd.hasKeywordCol = true) (hc : kd.hasCampaignCol = true) :
    generate_recommendations kd =
      Except.ok (joinOrSentinel
        (rule1Advisories kd ++ rule2Advisories kd ++
         rule3Advisories kd ++ rule4Advisories kd)) := by
  rw [generate_eq_of_dims kd hk hc]
  simp [allRuleAdvisories]

/-- Witness for C3: a single grouped row matching rules 1 and 4 produces
exactly the two advisories, with the one of rule 1 first. -/
theorem claim_C3_witness :
    generate_recommendations kd3w = Except.ok
      [Advisory.highACOS (Cell.str "k") (Cell.str "c") 60,
       Advisory.ineffectiveSpend (Cell.str "k") (Cell.str "c") 60] := by
  rw [claim_C3_fixed_rule_order kd3w rfl rfl]
  norm_num [joinOrSentinel, rule1Advisories, rule2Advisories, rule3Advisories,
    rule4Advisories, kd3w, g3w, List.filter]

/-- Claim C8: on the worked single-row example, the grouped table holds one
row with ACOS 200 and CTR 1/2, and the pipeline yields exactly one
advisory, from rule 1 (rule 2 fails on Total_Impressions = 1000, not
strictly greater; rule 4 fails on Total_Clicks = 5, not above 10). -/
theorem claim_C8_worked_example :
    (get_keyword_performance (preprocess_data df8)).rows =
      [{ campaign := Cell.str "A", keyword := Cell.str "kw1",
         totalImpressions := 1000, totalClicks := 5, totalSpend := 100,
         totalSales := 50, totalOrders := 0,
         ctr := 1/2, cpc := 20, cvr := 0, acos := 200, roas := 1/2 }] ∧
    generate_recommendations (get_keyword_performance (preprocess_data df8)) =
      Except.ok [Advisory.highACOS (Cell.str "kw1") (Cell.str "A") 200] := by
  constructor
  · norm_num [df8, row8, blankRow, get_keyword_performance, preprocess_data,
      preprocessRow, ensureAggCols, zeroImpressionsCol, zeroClicksCol,
      zeroSpendCol, zeroSalesCol, zeroOrdersCol, rowKey, coerce, mkGroup,
      groupRows, List.dedup, List.pwFilter, fdiv, efScale, normalizeEF,
      List.filter, List.filterMap]
  · norm_num [df8, row8, blankRow, get_keyword_performance, preprocess_data,
      preprocessRow, ensureAggCols, zeroImpressionsCol, zeroClicksCol,
      zeroSpendCol, zeroSalesCol, zeroOrdersCol, rowKey, coerce, mkGroup,
      groupRows, List.dedup, List.pwFilter, fdiv, efScale, normalizeEF,
      List.filter, List.filterMap, generate_recommendations, rule1Step,
      rule2Step, rule3Step, rule4Step, appendRecs, mkRule1, mkRule2, mkRule3,
      mkRule4, readKeyword, readCampaign, joinOrSentinel]

theorem engineInitHeap_snd (heap : List RawFrame) (i : Nat) :
    (engineInitHeap heap i).2 = heap.length := rfl

/-- Claim C9: the dataframe slot of the caller is untouched by engine
construction (which copies into a fresh slot before the in-place
preprocessing) and by grouped-performance computation (whose only in-place
writes target the engine slot); the totals, ratio and summary functions
read `self.df` without writing any slot. -/
theorem claim_C9_caller_frame_unchanged (heap : List RawFrame) (i : Nat)
    (h : i < heap.length) :
    (engineInitHeap heap i).1[i]? = heap[i]? ∧
    ((keywordPerformanceHeap (engineInitHeap heap i)).1.1)[i]? = heap[i]? := by
  have h1 : (engineInitHeap heap i).1[i]? = heap[i]? := by
    simp only [engineInitHeap]
    rw [List.getElem?_set_ne (by omega)]
    exact List.getElem?_append_left h
  refine ⟨h1, ?_⟩
  simp only [keywordPerformanceHeap]
  split
  · rw [engineInitHeap_snd, List.getElem?_set_ne (by omega)]
    exact h1
  · exact h1

/-- Witness for C9: a one-frame heap whose dirty frame survives the whole
engine run unchanged. -/
theorem claim_C9_witness :
    ((keywordPerformanceHeap (engineInitHeap [df9w] 0)).1.1)[0]? = some df9w := by
  have h := claim_C9_caller_frame_unchanged [df9w] 0 (by simp)
  rw [h.2]
  rfl

theorem mem_joinOrSentinel {a : Advisory} {l : List Advisory}
    (h : a ∈ joinOrSentinel l) : a = Advisory.sentinel ∨ a ∈ l := by
  unfold joinOrSentinel at h
  split at h
  · simp at h
    exact Or.inl h
  · exact Or.inr h

theorem mem_rule1Advisories {a : Advisory} {kd : KwFrame}
    (h : a ∈ rule1Advisories kd) :
    ∃ r : GRow, a = Advisory.highACOS r.keyword r.campaign r.acos := by
  unfold rule1Advisories at h
  split at h
  · rcases List.mem_map.mp h with ⟨r, _, rfl⟩
    exact ⟨r, rfl⟩
  · simp at h

theorem mem_rule2Advisories {a : Advisory} {kd : KwFrame}
    (h : a ∈ rule2Advisories kd) :
    ∃ r : GRow, a = Advisory.lowCTR r.keyword r.campaign r.ctr := by
  unfold rule2Advisories at h
  split at h
  · rcases List.mem_map.mp h with ⟨r, _, rfl⟩
    exact ⟨r, rfl⟩
  · simp at h

theorem mem_rule3Advisories {a : Advisory} {kd : KwFrame}
    (h : a ∈ rule3Advisories kd) :
    ∃ r : GRow, a = Advisory.highPerformer r.keyword r.campaign r.acos
      r.totalSales := by
  unfold rule3Advisories at h
  split at h
  · rcases List.mem_map.mp h with ⟨r, _, rfl⟩
    exact ⟨r, rfl⟩
  · simp at h

theorem mem_rule4Advisories {a : Advisory} {kd : KwFrame}
    (h : a ∈ rule4Advisories kd) :
    ∃ r : GRow, a = Advisory.ineffectiveSpend r.keyword r.campaign
      r.totalSpend := by
  unfold rule4Advisories at h
  split at h
  · rcases List.mem_map.mp h with ⟨r, _, rfl⟩
    exact ⟨r, rfl⟩
  · simp at h

theorem rule1Advisories_of_guard_false {kd : KwFrame}
    (h : kd.hasACOSCol = false) : rule1Advisories kd = [] := by
  simp [rule1Advisories, h]

theorem rule2Advisories_of_guard_false {kd : KwFrame}
    (h : (kd.hasCTRCol && kd.hasTotalImpressionsCol) = false) :
    rule2Advisories kd = [] := by
  simp [rule2Advisories, h]

theorem rule3Advisories_of_guard_false {kd : KwFrame}
    (h : (kd.hasACOSCol && kd.hasTotalSalesCol) = false) :
    rule3Advisories kd = [] := by
  simp [rule3Advisories, h]

theorem rule4Advisories_of_guard_false {kd : KwFrame}
    (h : (kd.hasTotalSpendCol && kd.hasTotalOrdersCol &&
          kd.hasTotalClicksCol) = false) :
    rule4Advisories kd = [] := by
  simp [rule4Advisories, h]

/-- Counterexample to C6 as stated: `kd6bad` lacks the keyword and
campaign columns (required by every rule to build its advisory text) but
has the ACOS column, so the guard of rule 1 passes, its filter matches the row
with ACOS 100, and the row lookup raises a KeyError instead of the rule
being skipped. -/
theorem claim_C6_counterexample :
    kd6bad.hasKeywordCol = false ∧
    generate_recommendations kd6bad =
      Except.error "KeyError: Keyword or Product Targeting" := by
  refine ⟨rfl, ?_⟩
  norm_num [generate_recommendations, rule1Step, appendRecs, mkRule1,
    readKeyword, readCampaign, kd6bad, g6bad, List.filter]

/-- Claim C6 (amended): a missing grouping column makes the engine return
the empty table without raising; a missing rule-condition column makes the
generator skip that rule (it contributes no advisories) while the other
rules still run — provided the grouped table keeps its two dimension
columns, whose absence can instead raise a KeyError from within a matching
rule (see the counterexample). -/
theorem claim_C6_missing_columns_skip (df : RawFrame) (kd : KwFrame) :
    ((df.hasKeyword && df.hasCampaign) = false →
      get_keyword_performance df = KwFrame.empty) ∧
    (kd.hasKeywordCol = true → kd.hasCampaignCol = true →
      ∃ l, generate_recommendations kd = Except.ok l ∧
        (kd.hasACOSCol = false →
          ∀ kw cp v, Advisory.highACOS kw cp v ∉ l) ∧
        ((kd.hasCTRCol && kd.hasTotalImpressionsCol) = false →
          ∀ kw cp v, Advisory.lowCTR kw cp v ∉ l) ∧
        ((kd.hasACOSCol && kd.hasTotalSalesCol) = false →
          ∀ kw cp a s, Advisory.highPerformer kw cp a s ∉ l) ∧
        ((kd.hasTotalSpendCol && kd.hasTotalOrdersCol &&
          kd.hasTotalClicksCol) = false →
          ∀ kw cp v, Advisory.ineffectiveSpend kw cp v ∉ l)) := by
  refine ⟨fun h => kwp_no_dims df h, fun hk hc => ?_⟩
  refine ⟨joinOrSentinel (allRuleAdvisories kd),
    generate_eq_of_dims kd hk hc, ?_, ?_, ?_, ?_⟩
  · intro hg kw cp v hmem
    rcases mem_joinOrSentinel hmem with h | h
    · simp at h
    · rcases List.mem_append.mp h with h | h
      · rcases List.mem_append.mp h with h | h
        · rcases List.mem_append.mp h with h | h
          · rw [rule1Advisories_of_guard_false hg] at h
            simp at h
          · rcases mem_rule2Advisories h with ⟨r, hr⟩
            simp at hr
        · rcases mem_rule3Advisories h with ⟨r, hr⟩
          simp at hr
      · rcases mem_rule4Advisories h with ⟨r, hr⟩
        simp at hr
  · intro hg kw cp v hmem
    rcases mem_joinOrSentinel hmem with h | h
    · simp at h
    · rcases List.mem_append.mp h with h | h
      · rcases List.mem_append.mp h with h | h
        · rcases List.mem_append.mp h with h | h
          · rcases mem_rule1Advisories h with ⟨r, hr⟩
            simp at hr
          · rw [rule2Advisories_of_guard_false hg] at h
            simp at h
        · rcases mem_rule3Advisories h with ⟨r, hr⟩
          simp at hr
      · rcases mem_rule4Advisories h with ⟨r, hr⟩
        simp at hr
  · intro hg kw cp a s hmem
    rcases mem_joinOrSentinel hmem with h | h
    · simp at h
    · rcases List.mem_append.mp h with h | h
      · rcases List.mem_append.mp h with h | h
        · rcases List.mem_append.mp h with h | h
          · rcases mem_rule1Advisories h with ⟨r, hr⟩
            simp at hr
          · rcases mem_rule2Advisories h with ⟨r, hr⟩
            simp at hr
        · rw [rule3Advisories_of_guard_false hg] at h
          simp at h
      · rcases mem_rule4Advisories h with ⟨r, hr⟩
        simp at hr
  · intro hg kw cp v hmem
    rcases mem_joinOrSentinel hmem with h | h
    · simp at h
    · rcases List.mem_append.mp h with h | h
      · rcases List.mem_append.mp h with h | h
        · rcases List.mem_append.mp h with h | h
          · rcases mem_rule1Advisories h with ⟨r, hr⟩
            simp at hr
          · rcases mem_rule2Advisories h with ⟨r, hr⟩
            simp at hr
        · rcases mem_rule3Advisories h with ⟨r, hr⟩
          simp at hr
      · rw [rule4Advisories_of_guard_false hg] at h
        simp at h

/-- Witness for C6: a dataset without the keyword column yields the empty
grouped table, and a grouped table without the ACOS column yields a result
free of rule-1 advisories even though its row has ACOS 999. -/
theorem claim_C6_witness :
    get_keyword_performance df6nd = KwFrame.empty ∧
    ∃ l, generate_recommendations kd6w = Except.ok l ∧
      ∀ kw cp v, Advisory.highACOS kw cp v ∉ l := by
  have h := claim_C6_missing_columns_skip df6nd kd6w
  refine ⟨h.1 rfl, ?_⟩
  obtain ⟨l, hl, h1, _, _, _⟩ := h.2 rfl rfl
  exact ⟨l, hl, h1 rfl⟩

theorem groupRows_eq_filter_pairKey (e : List RawRow) (k : Cell × Cell)
    (hkey : ∀ r ∈ e, rowKey r = some (pairKey r)) :
    groupRows e k = e.filter (fun r => decide (pairKey r = k)) := by
  unfold groupRows
  refine List.filter_congr ?_
  intro r hr
  rw [hkey r hr]
  exact decide_eq_decide.mpr (by simp)

theorem partition_sum_proj (e : List RawRow) (f : RawRow → ℚ) (proj : GRow → ℚ)
    (hproj : ∀ k, proj (mkGroup e k) = ((groupRows e k).map f).sum)
    (hkey : ∀ r ∈ e, rowKey r = some (pairKey r)) :
    ((((e.filterMap rowKey).dedup).map (mkGroup e)).map proj).sum =
      (e.map f).sum := by
  have hmc : (((e.filterMap rowKey).dedup).map (proj ∘ mkGroup e)) =
      (((e.filterMap rowKey).dedup).map
        (fun k => ((e.filter (fun r => decide (pairKey r = k))).map f).sum)) :=
    List.map_congr_left (fun k _ => by
      simp only [Function.comp_apply]
      rw [hproj k, groupRows_eq_filter_pairKey e k hkey])
  rw [List.map_map, hmc, filterMap_eq_map_of_mem rowKey pairKey e hkey]
  exact sum_partition pairKey f ((e.map pairKey).dedup) e (List.nodup_dedup _)
    (fun r hr => List.mem_dedup.mpr (List.mem_map.mpr ⟨r, hr, rfl⟩))

/-- Claim C2 (amended): provided every row carries non-null values in both
dimension cells — pandas `groupby` silently drops rows with a NaN key, see
the counterexample — the grouped table has exactly one row per distinct
(campaign, keyword) pair of the input, each group total is the column sum
restricted to the rows of that pair, and the group totals partition the
overall totals. -/
theorem claim_C2_grouping_partition (df : RawFrame)
    (hK : df.hasKeyword = true) (hC : df.hasCampaign = true)
    (hnn : ∀ r ∈ df.rows, r.campaign ≠ Cell.null ∧ r.keyword ≠ Cell.null) :
    (get_keyword_performance (preprocess_data df)).rows.length =
      ((df.rows.map pairKey).dedup).length ∧
    (∀ g ∈ (get_keyword_performance (preprocess_data df)).rows,
      g.totalImpressions = (((preprocess_data df).rows.filter
          (fun r => decide (pairKey r = (g.campaign, g.keyword)))).map
          (fun r => coerce r.impressions)).sum ∧
      g.totalClicks = (((preprocess_data df).rows.filter
          (fun r => decide (pairKey r = (g.campaign, g.keyword)))).map
          (fun r => coerce r.clicks)).sum ∧
      g.totalSpend = (((preprocess_data df).rows.filter
          (fun r => decide (pairKey r = (g.campaign, g.keyword)))).map
          (fun r => coerce r.spend)).sum ∧
      g.totalSales = (((preprocess_data df).rows.filter
          (fun r => decide (pairKey r = (g.campaign, g.keyword)))).map
          (fun r => coerce r.sales)).sum ∧
      g.totalOrders = (((preprocess_data df).rows.filter
          (fun r => decide (pairKey r = (g.campaign, g.keyword)))).map
          (fun r => coerce r.orders)).sum) ∧
    (((get_keyword_performance (preprocess_data df)).rows.map
        (fun g => g.totalImpressions)).sum =
      get_total_impressions (preprocess_data df) ∧
     ((get_keyword_performance (preprocess_data df)).rows.map
        (fun g => g.totalClicks)).sum =
      get_total_clicks (preprocess_data df) ∧
     ((get_keyword_performance (preprocess_data df)).rows.map
        (fun g => g.totalSpend)).sum =
      get_total_spend (preprocess_data df) ∧
     ((get_keyword_performance (preprocess_data df)).rows.map
        (fun g => g.totalSales)).sum =
      get_total_sales (preprocess_data df) ∧
     ((get_keyword_performance (preprocess_data df)).rows.map
        (fun g => g.totalOrders)).sum =
      get_total_orders (preprocess_data df)) := by
  have hK2 : (preprocess_data df).hasKeyword = true := by
    simpa [preprocess_data] using hK
  have hC2 : (preprocess_data df).hasCampaign = true := by
    simpa [preprocess_data] using hC
  have hrows : (preprocess_data df).rows = df.rows.map (preprocessRow df) := rfl
  have hnn2 : ∀ r ∈ (preprocess_data df).rows,
      r.campaign ≠ Cell.null ∧ r.keyword ≠ Cell.null := by
    intro r hr
    rw [hrows] at hr
    rcases List.mem_map.mp hr with ⟨r0, hr0, rfl⟩
    simpa [preprocessRow] using hnn r0 hr0
  have hkey : ∀ r ∈ (preprocess_data df).rows, rowKey r = some (pairKey r) :=
    fun r hr => rowKey_eq_pairKey r (hnn2 r hr).1 (hnn2 r hr).2
  have hkwp := kwp_of_dims (preprocess_data df) hK2 hC2
  rw [ensureAggCols_preprocess] at hkwp
  have hshape : (get_keyword_performance (preprocess_data df)).rows =
      (((preprocess_data df).rows.filterMap rowKey).dedup).map
        (mkGroup (preprocess_data df).rows) := by rw [hkwp]
  have hmapeq : (preprocess_data df).rows.map pairKey = df.rows.map pairKey := by
    rw [hrows, List.map_map]
    exact List.map_congr_left (fun r _ => pairKey_preprocessRow df r)
  refine ⟨?_, ?_, ?_⟩
  · rw [hshape, List.length_map,
      filterMap_eq_map_of_mem rowKey pairKey _ hkey, hmapeq]
  · intro g hg
    rw [hshape] at hg
    rcases List.mem_map.mp hg with ⟨k, _, rfl⟩
    have hck : ((mkGroup (preprocess_data df).rows k).campaign,
                (mkGroup (preprocess_data df).rows k).keyword) = k := by
      rw [mkGroup_campaign, mkGroup_keyword]
    have hgr := groupRows_eq_filter_pairKey (preprocess_data df).rows k hkey
    refine ⟨?_, ?_, ?_, ?_, ?_⟩
    · rw [mkGroup_totalImpressions, hgr, hck]
    · rw [mkGroup_totalClicks, hgr, hck]
    · rw [mkGroup_totalSpend, hgr, hck]
    · rw [mkGroup_totalSales, hgr, hck]
    · rw [mkGroup_totalOrders, hgr, hck]
  · refine ⟨?_, ?_, ?_, ?_, ?_⟩
    · rw [hshape]
      exact partition_sum_proj (preprocess_data df).rows
        (fun r => coerce r.impressions) (fun g => g.totalImpressions)
        (fun k => mkGroup_totalImpressions (preprocess_data df).rows k) hkey
    · rw [hshape]
      exact partition_sum_proj (preprocess_data df).rows
        (fun r => coerce r.clicks) (fun g => g.totalClicks)
        (fun k => mkGroup_totalClicks (preprocess_data df).rows k) hkey
    · rw [hshape]
      exact partition_sum_proj (preprocess_data df).rows
        (fun r => coerce r.spend) (fun g => g.totalSpend)
        (fun k => mkGroup_totalSpend (preprocess_data df).rows k) hkey
    · rw [hshape]
      exact partition_sum_proj (preprocess_data df).rows
        (fun r => coerce r.sales) (fun g => g.totalSales)
        (fun k => mkGroup_totalSales (preprocess_data df).rows k) hkey
    · rw [hshape]
      exact partition_sum_proj (preprocess_data df).rows
        (fun r => coerce r.orders) (fun g => g.totalOrders)
        (fun k => mkGroup_totalOrders (preprocess_data df).rows k) hkey

/-- Counterexample to C2 as stated: `df2bad` has both dimension columns
and a single row with 5 impressions whose campaign cell is NaN; pandas
`groupby` (default `dropna=True`) drops that row, so the grouped table is
empty while the overall impressions total is 5 — the group totals do not
partition the overall totals, and the row count misses the pair. -/
theorem claim_C2_counterexample :
    df2bad.hasCampaign = true ∧ df2bad.hasKeyword = true ∧
    (get_keyword_performance (preprocess_data df2bad)).rows = [] ∧
    get_total_impressions (preprocess_data df2bad) = 5 ∧
    ((get_keyword_performance (preprocess_data df2bad)).rows.map
        (fun g => g.totalImpressions)).sum ≠
      get_total_impressions (preprocess_data df2bad) := by
  have hrows : (get_keyword_performance (preprocess_data df2bad)).rows = [] := by
    norm_num [df2bad, row2bad, blankRow, get_keyword_performance,
      preprocess_data, preprocessRow, ensureAggCols, zeroImpressionsCol,
      zeroClicksCol, zeroSpendCol, zeroSalesCol, zeroOrdersCol, rowKey,
      coerce, List.dedup, List.filterMap]
  have htot : get_total_impressions (preprocess_data df2bad) = 5 := by
    norm_num [df2bad, row2bad, blankRow, get_total_impressions,
      preprocess_data, preprocessRow, coerce]
  refine ⟨rfl, rfl, hrows, htot, ?_⟩
  rw [hrows, htot]
  norm_num

/-- Witness for C2 at a clean three-row dataset with two dimension pairs. -/
theorem claim_C2_witness :
    (get_keyword_performance (preprocess_data df2w)).rows.length =
      ((df2w.rows.map pairKey).dedup).length ∧
    ((get_keyword_performance (preprocess_data df2w)).rows.map
        (fun g => g.totalImpressions)).sum =
      get_total_impressions (preprocess_data df2w) := by
  have h := claim_C2_grouping_partition df2w rfl rfl (by
    intro r hr
    simp [df2w] at hr
    rcases hr with rfl | rfl | rfl <;>
      simp [row2a, row2b, row2c, blankRow])
  exact ⟨h.1, h.2.2.1⟩
